import Mathlib

/-!
Shallow embedding of the GPU resource-lifecycle core of `learn_gfx_rs`
(src/gfx_state.rs, src/drawing.rs, src/buffer_info.rs, src/pipeline_info.rs).

GPU handles are modelled as `Nat` tags.  Every fallible GPU-side operation
(image acquisition, fence wait, memory map, presentation, ...) is resolved by
an explicit environment record, and each modelled function additionally
returns the trace of the GPU commands it issued, so that ordering and
indexing claims can be stated about the trace.
-/

namespace LearnGfxRs

/-- FRAMES_IN_FLIGHT from src/utils.rs (and src/gfx_state.rs line 50). -/
def FRAMES_IN_FLIGHT : Nat := 3

/-- Byte length of QUAD_DATA ([f32; 8], src/utils.rs): 8 * size_of f32. -/
def QUAD_DATA_BYTES : Nat := 8 * 4

/-- Byte length of QUAD_INDICES ([u16; 6], src/utils.rs): 6 * size_of u16. -/
def QUAD_INDICES_BYTES : Nat := 6 * 2

/-- gfx_hal memory Requirements (size, alignment, type_mask). -/
structure Requirements where
  size : Nat
  alignment : Nat
  type_mask : Nat
deriving DecidableEq, Repr

/-- One entry of adapter.physical_device.memory_properties().memory_types:
only the CPU_VISIBLE bit is inspected by the program. -/
structure MemoryType where
  cpu_visible : Bool
deriving DecidableEq, Repr

/-- BufferInfo from src/buffer_info.rs: a buffer handle, its memory handle
and the queried requirements. -/
structure BufferInfo where
  buffer : Nat
  memory : Nat
  requirements : Requirements
deriving DecidableEq, Repr

/-- PipelineInfo from src/pipeline_info.rs: descriptor set layouts, the
pipeline layout and the graphics pipeline handle. -/
structure PipelineInfo where
  descriptor_set_layouts : List Nat
  layout : Nat
  handle : Nat
deriving DecidableEq, Repr

/-- GfxState from src/gfx_state.rs (handle fields only; `content_size` is
irrelevant to the claims and omitted). -/
structure GfxState where
  current_frame : Nat
  in_flight_fences : List Nat
  render_finished_semaphores : List Nat
  image_available_semaphores : List Nat
  command_buffers : List Nat
  framebuffers : List Nat
  image_views : List Nat
  command_pool : Nat
  render_pass : Nat
  swapchain : Nat
  pipeline : PipelineInfo
  vertices : BufferInfo
  indices : BufferInfo
deriving DecidableEq, Repr

/-- Shader stage flags; the program only ever uses the VERTEX stage. -/
inductive Stage
  | vertex
deriving DecidableEq, Repr

/-- Result of swapchain.present: success carries the optional Suboptimal
marker, which the code discards with `.map(|_| ())`. -/
inductive PresentResult
  | ok (suboptimal : Option Unit)
  | failed
deriving DecidableEq, Repr

/-- Oracle results for the fallible operations inside one draw_frame call
(src/drawing.rs lines 23-112).  `acquire` is `none` on AcquireError and
otherwise carries the image index and the optional Suboptimal marker.
`mouse` holds the two u32 bit patterns transmuted from mouse.x / mouse.y. -/
structure DrawEnv where
  acquire : Option (Nat × Option Unit)
  waitFenceOk : Bool
  resetFenceOk : Bool
  mapVerticesOk : Bool
  mapIndicesOk : Bool
  mouse : Nat × Nat
  present : PresentResult
deriving DecidableEq, Repr

/-- GPU commands issued by draw_frame, in issue order. -/
inductive DrawAction
  | acquireImage (semaphore : Nat)
  | waitFence (fence : Nat)
  | resetFence (fence : Nat)
  | loadVertices
  | loadIndices
  | record (cmdBuf : Nat) (layout : Nat) (stage : Stage)
      (pushOffset : Nat) (pushWords : List Nat) (framebuffer : Nat)
  | submit (cmdBuf : Nat) (waitSem : Nat) (signalSem : Nat) (fence : Nat)
  | present (imageIndex : Nat) (waitSem : Nat)
deriving DecidableEq, Repr

/-- Outcome of a draw_frame call: Ok(()), Err(msg), or a Rust panic
(index out of bounds). -/
inductive DrawResult
  | ok
  | err (msg : String)
  | panicked
deriving DecidableEq, Repr

/-- draw_frame from src/drawing.rs lines 14-113 (identical logic to
GfxState::draw_frame, src/gfx_state.rs lines 286-360).  The two semaphore
lookups at the frame slot happen before `current_frame` is advanced; the
advance happens before the acquire, the first fallible step.  All later
indexing uses the acquired image index.  Out-of-bounds Vec indexing is a
Rust panic, modelled as `DrawResult.panicked`. -/
def draw_frame (s : GfxState) (env : DrawEnv) :
    GfxState × List DrawAction × DrawResult :=
  match s.image_available_semaphores[s.current_frame]? with
  | none => (s, [], .panicked)
  | some image_available =>
    match s.render_finished_semaphores[s.current_frame]? with
    | none => (s, [], .panicked)
    | some render_finished =>
      let s' := { s with current_frame := (s.current_frame + 1) % FRAMES_IN_FLIGHT }
      match env.acquire with
      | none =>
          (s', [.acquireImage image_available],
           .err "Failed to acquire an image from the swapchain")
      | some (image_i, _suboptimal) =>
        match s.in_flight_fences[image_i]? with
        | none => (s', [.acquireImage image_available], .panicked)
        | some flight_fence =>
          if env.waitFenceOk = false then
            (s', [.acquireImage image_available, .waitFence flight_fence],
             .err "Failed to wait on the fence")
          else if env.resetFenceOk = false then
            (s', [.acquireImage image_available, .waitFence flight_fence,
                  .resetFence flight_fence],
             .err "Failed to reset the fence")
          else if env.mapVerticesOk = false then
            (s', [.acquireImage image_available, .waitFence flight_fence,
                  .resetFence flight_fence],
             .err "Failed to memory map buffer")
          else if env.mapIndicesOk = false then
            (s', [.acquireImage image_available, .waitFence flight_fence,
                  .resetFence flight_fence, .loadVertices],
             .err "Failed to memory map buffer")
          else
            match s.command_buffers[image_i]? with
            | none =>
                (s', [.acquireImage image_available, .waitFence flight_fence,
                      .resetFence flight_fence, .loadVertices, .loadIndices],
                 .panicked)
            | some cmdBuf =>
              match s.framebuffers[image_i]? with
              | none =>
                  (s', [.acquireImage image_available, .waitFence flight_fence,
                        .resetFence flight_fence, .loadVertices, .loadIndices],
                   .panicked)
              | some framebuffer =>
                let trace :=
                  [DrawAction.acquireImage image_available,
                   .waitFence flight_fence, .resetFence flight_fence,
                   .loadVertices, .loadIndices,
                   .record cmdBuf s.pipeline.layout .vertex 0
                     [env.mouse.1, env.mouse.2] framebuffer,
                   .submit cmdBuf image_available render_finished flight_fence,
                   .present image_i render_finished]
                match env.present with
                | .ok _ => (s', trace, .ok)
                | .failed =>
                    (s', trace, .err "Failed to present into the swapchain")

/-- Folding draw_frame over a list of per-call environments (successive
calls from the event loop in src/main.rs). -/
def draw_frames (s : GfxState) (envs : List DrawEnv) : GfxState :=
  envs.foldl (fun st e => (draw_frame st e).1) s

/-- Device-level destroy operations issued during teardown, in issue order
(src/gfx_state.rs `free`, src/buffer_info.rs `free`, src/pipeline_info.rs
`free`). -/
inductive FreeAction
  | waitIdle
  | destroyFence (h : Nat)
  | destroySemaphore (h : Nat)
  | destroyFramebuffer (h : Nat)
  | destroyImageView (h : Nat)
  | destroyBuffer (h : Nat)
  | freeMemory (h : Nat)
  | destroyDescriptorSetLayout (h : Nat)
  | destroyPipelineLayout (h : Nat)
  | destroyGraphicsPipeline (h : Nat)
  | destroyCommandPool (h : Nat)
  | destroyRenderPass (h : Nat)
  | destroySwapchain (h : Nat)
deriving DecidableEq, Repr, BEq

/-- BufferInfo::free (src/buffer_info.rs lines 82-87): destroys the buffer
then frees the memory via ptr::read of the ManuallyDrop fields, so the
fields themselves are left in place. -/
def BufferInfo.free (b : BufferInfo) : List FreeAction :=
  [.destroyBuffer b.buffer, .freeMemory b.memory]

/-- PipelineInfo::free (src/pipeline_info.rs lines 145-156): drains the
descriptor set layouts, then destroys the pipeline layout and the pipeline
handle via ptr::read (those two fields stay in place). -/
def PipelineInfo.free (p : PipelineInfo) : PipelineInfo × List FreeAction :=
  ({ p with descriptor_set_layouts := [] },
   p.descriptor_set_layouts.map .destroyDescriptorSetLayout
     ++ [.destroyPipelineLayout p.layout, .destroyGraphicsPipeline p.handle])

/-- GfxState::free (src/gfx_state.rs lines 362-400): waits for the device
to go idle, then drains and destroys fences, render-finished semaphores,
image-available semaphores, framebuffers and image views, frees the vertex
and index buffers, frees the pipeline, and finally destroys the command
pool, render pass and swapchain via ptr::read of the ManuallyDrop fields
(which therefore keep their handles). -/
def GfxState.free (s : GfxState) : GfxState × List FreeAction :=
  let pfree := s.pipeline.free
  ({ s with
      in_flight_fences := []
      render_finished_semaphores := []
      image_available_semaphores := []
      framebuffers := []
      image_views := []
      pipeline := pfree.1 },
   .waitIdle ::
     (s.in_flight_fences.map .destroyFence
       ++ s.render_finished_semaphores.map .destroySemaphore
       ++ s.image_available_semaphores.map .destroySemaphore
       ++ s.framebuffers.map .destroyFramebuffer
       ++ s.image_views.map .destroyImageView
       ++ s.vertices.free
       ++ s.indices.free
       ++ pfree.2
       ++ [.destroyCommandPool s.command_pool,
           .destroyRenderPass s.render_pass,
           .destroySwapchain s.swapchain]))

/-- The resize path of main (src/main.rs lines 70-78): an explicit
`gfx_state.free()` followed by reassignment of the binding; the assignment
drops the old value, and `Drop for GfxState` (src/gfx_state.rs lines
403-407) calls `free` again on the same instance.  Result: the destroy
actions issued by the two calls, in order. -/
def resize_path (s : GfxState) : List FreeAction :=
  let first := s.free
  let second := first.1.free
  first.2 ++ second.2

/-- Extract the handle of a fence destroy. -/
def fenceOf : FreeAction → Option Nat
  | .destroyFence h => some h
  | _ => none

/-- Extract the handle of a semaphore destroy. -/
def semaphoreOf : FreeAction → Option Nat
  | .destroySemaphore h => some h
  | _ => none

/-- Extract the handle of a framebuffer destroy. -/
def framebufferOf : FreeAction → Option Nat
  | .destroyFramebuffer h => some h
  | _ => none

/-- Extract the handle of an image view destroy. -/
def imageViewOf : FreeAction → Option Nat
  | .destroyImageView h => some h
  | _ => none

/-- Dependency rank of a teardown action, following the order the spec
requires: idle wait, fences, semaphores, framebuffers, image views, buffer
resources, pipeline resource, command pool, render pass, swapchain. -/
def rank : FreeAction → Nat
  | .waitIdle => 0
  | .destroyFence _ => 1
  | .destroySemaphore _ => 2
  | .destroyFramebuffer _ => 3
  | .destroyImageView _ => 4
  | .destroyBuffer _ => 5
  | .freeMemory _ => 5
  | .destroyDescriptorSetLayout _ => 6
  | .destroyPipelineLayout _ => 6
  | .destroyGraphicsPipeline _ => 6
  | .destroyCommandPool _ => 7
  | .destroyRenderPass _ => 8
  | .destroySwapchain _ => 9

/-- Steps of BufferInfo::new, in issue order (src/buffer_info.rs 21-61). -/
inductive BufAction
  | createBuffer (size : Nat)
  | getRequirements
  | allocateMemory (typeId : Nat) (size : Nat)
  | bindBufferMemory (offset : Nat)
deriving DecidableEq, Repr

/-- Oracle results for one BufferInfo::new call: whether create_buffer,
allocate_memory and bind_buffer_memory succeed, the handles they produce,
the queried requirements, and the adapter's memory type table. -/
structure BufferEnv where
  createOk : Bool
  bufferHandle : Nat
  requirements : Requirements
  memory_types : List MemoryType
  allocateOk : Bool
  memoryHandle : Nat
  bindOk : Bool
deriving DecidableEq, Repr

/-- The per-type predicate of the memory-type search
(src/buffer_info.rs lines 41-44): the requirements' type mask has bit `id`
set and the type is CPU_VISIBLE. -/
def memory_type_ok (mask id : Nat) (t : MemoryType) : Bool :=
  (mask &&& (1 <<< id) != 0) && t.cpu_visible

/-- The `.iter().enumerate().find(..)` scan of the memory types
(src/buffer_info.rs lines 35-46), started at index `k`. -/
def find_memory_type (mask : Nat) : Nat → List MemoryType → Option Nat
  | _, [] => none
  | k, t :: ts =>
      if memory_type_ok mask k t then some k
      else find_memory_type mask (k + 1) ts

/-- array_size (src/buffer_info.rs lines 90-92). -/
def array_size (len sizeOfT : Nat) : Nat := len * sizeOfT

/-- BufferInfo::new (src/buffer_info.rs lines 21-61): create the buffer
sized to the data's byte length, query requirements, find the first
CPU-visible compatible memory type, allocate `requirements.size` bytes,
bind at offset 0; each step fails with its own error string. -/
def BufferInfo.new (dataBytes : Nat) (env : BufferEnv) :
    Except String BufferInfo × List BufAction :=
  if env.createOk = false then
    (.error "Failed to create a buffer for the vertices",
     [.createBuffer dataBytes])
  else
    match find_memory_type env.requirements.type_mask 0 env.memory_types with
    | none =>
        (.error "Failed to find a memory type to support the vertex buffer",
         [.createBuffer dataBytes, .getRequirements])
    | some id =>
      if env.allocateOk = false then
        (.error "Failed to allocate vertex buffer memory",
         [.createBuffer dataBytes, .getRequirements,
          .allocateMemory id env.requirements.size])
      else if env.bindOk = false then
        (.error "Failed to bind the buffer memory",
         [.createBuffer dataBytes, .getRequirements,
          .allocateMemory id env.requirements.size, .bindBufferMemory 0])
      else
        (.ok { buffer := env.bufferHandle, memory := env.memoryHandle,
               requirements := env.requirements },
         [.createBuffer dataBytes, .getRequirements,
          .allocateMemory id env.requirements.size, .bindBufferMemory 0])

/-- Memory-mapping steps of BufferInfo::load_data, in issue order. -/
inductive MapAction
  | mapMemory (first last : Nat)
  | copy (bytes : Nat)
  | unmapMemory
deriving DecidableEq, Repr

/-- Result of a load_data call. -/
inductive LoadResult
  | ok
  | err (msg : String)
deriving DecidableEq, Repr

/-- BufferInfo::load_data (src/buffer_info.rs lines 63-80): map the range
0..requirements.size, ptr::copy the data's bytes to the start of the
mapped region, unmap.  `memory` is the byte contents of the allocation;
a failed map leaves it unchanged. -/
def BufferInfo.load_data (b : BufferInfo) (memory data : List Nat)
    (mapOk : Bool) : List Nat × List MapAction × LoadResult :=
  if mapOk = false then
    (memory, [.mapMemory 0 b.requirements.size],
     .err "Failed to memory map buffer")
  else
    (data ++ memory.drop data.length,
     [.mapMemory 0 b.requirements.size, .copy data.length, .unmapMemory],
     .ok)

/-- Per-vertex versus per-instance input rate (gfx_hal VertexInputRate). -/
inductive VertexInputRate
  | vertex
  | perInstance
deriving DecidableEq, Repr

/-- The two formats the program mentions (gfx_hal Format). -/
inductive Format
  | rgba8Srgb
  | rg32Sfloat
deriving DecidableEq, Repr

/-- gfx_hal pso VertexBufferDesc. -/
structure VertexBufferDesc where
  binding : Nat
  stride : Nat
  rate : VertexInputRate
deriving DecidableEq, Repr

/-- gfx_hal pso Element (format and offset of an attribute). -/
structure Element where
  format : Format
  offset : Nat
deriving DecidableEq, Repr

/-- gfx_hal pso AttributeDesc. -/
structure AttributeDesc where
  location : Nat
  binding : Nat
  element : Element
deriving DecidableEq, Repr

/-- One push-constant range passed to create_pipeline_layout:
a (ShaderStageFlags, Range of u32 words) pair. -/
structure PushConstantRange where
  stage : Stage
  lo : Nat
  hi : Nat
deriving DecidableEq, Repr

/-- Oracle results for one compile_shader call
(src/pipeline_info.rs lines 159-174): read the source file, compile it to
SPIR-V, create the shader module. -/
structure ShaderEnv where
  readOk : Bool
  compileOk : Bool
  moduleOk : Bool
deriving DecidableEq, Repr

/-- compile_shader (src/pipeline_info.rs lines 159-174).  The middle error
string reads "fragment program" even when the vertex shader fails, exactly
as in the source. -/
def compile_shader (env : ShaderEnv) : Except String Unit :=
  if env.readOk = false then .error "Could not read shader source file"
  else if env.compileOk = false then .error "Failed to compile fragment program"
  else if env.moduleOk = false then .error "Failed to create shader module"
  else .ok ()

/-- Oracle results for PipelineInfo::new. -/
structure PipelineEnv where
  compilerOk : Bool
  vert : ShaderEnv
  frag : ShaderEnv
  descriptorSetLayoutOk : Bool
  pipelineLayoutOk : Bool
  pipelineOk : Bool
deriving DecidableEq, Repr

/-- What a successful PipelineInfo::new created: the handles plus the
declarations it passed to the device. -/
structure PipelineCreation where
  info : PipelineInfo
  push_constants : List PushConstantRange
  vertex_buffers : List VertexBufferDesc
  attributes : List AttributeDesc
deriving DecidableEq, Repr

/-- PipelineInfo::new (src/pipeline_info.rs lines 14-143): compiles the two
shaders, creates one empty descriptor set layout, creates the pipeline
layout passing `Vec::<(ShaderStageFlags, Range<u32>)>::new()` — an empty
push-constant range list (line 45) — and creates the graphics pipeline with
one vertex-buffer binding of stride `size_of::<f32>() * 2` at per-vertex
rate and one Rg32Sfloat attribute at location 0, offset 0. -/
def PipelineInfo.new (env : PipelineEnv) : Except String PipelineCreation :=
  if env.compilerOk = false then .error "Failed to create shader compiler"
  else
    match compile_shader env.vert with
    | .error e => .error e
    | .ok _ =>
      match compile_shader env.frag with
      | .error e => .error e
      | .ok _ =>
        if env.descriptorSetLayoutOk = false then
          .error "Failed to create a descriptor set layout"
        else if env.pipelineLayoutOk = false then
          .error "Failed to create a pipeline layout"
        else if env.pipelineOk = false then
          .error "Failed to create graphics pipeline"
        else
          .ok { info := { descriptor_set_layouts := [0], layout := 0, handle := 0 },
                push_constants := [],
                vertex_buffers := [{ binding := 0, stride := 4 * 2, rate := .vertex }],
                attributes :=
                  [{ location := 0, binding := 0,
                     element := { format := .rg32Sfloat, offset := 0 } }] }

/-- `collect::<Result<Vec<_>, _>>()`: map a fallible step over a list,
stopping at the first error. -/
def mapExcept {α β : Type} (f : α → Except String β) :
    List α → Except String (List β)
  | [] => .ok []
  | a :: as =>
    match f a with
    | .error e => .error e
    | .ok b =>
      match mapExcept f as with
      | .error e => .error e
      | .ok bs => .ok (b :: bs)

/-- full_flight (src/gfx_state.rs lines 409-416): run the creation callback
FRAMES_IN_FLIGHT times and collect the results. -/
def full_flight (cb : Nat → Except String Nat) : Except String (List Nat) :=
  mapExcept cb (List.range FRAMES_IN_FLIGHT)

/-- Oracle results for GfxState::new (src/gfx_state.rs lines 77-284).
`viewOk` and `framebufferOk` decide per-handle whether create_image_view /
create_framebuffer succeed; the semaphore/fence Bools decide whether the
full_flight creations succeed. -/
structure NewEnv where
  instanceOk : Bool
  surfaceOk : Bool
  adapterFound : Bool
  queueFamilyFound : Bool
  deviceOk : Bool
  queueGroupFound : Bool
  queuesNonempty : Bool
  swapchainOk : Bool
  renderPassOk : Bool
  viewOk : Nat → Bool
  framebufferOk : Nat → Bool
  commandPoolOk : Bool
  imageAvailableOk : Bool
  renderFinishedOk : Bool
  fencesOk : Bool
  pipelineEnv : PipelineEnv
  verticesEnv : BufferEnv
  indicesEnv : BufferEnv

/-- The `.map_err(..)?` pattern on a step that only succeeds or fails. -/
def guard_step (ok : Bool) (msg : String) : Except String Unit :=
  if ok then .ok () else .error msg

/-- GfxState::new (src/gfx_state.rs lines 77-284).  `backbuffer` is the
list of swapchain image handles returned by create_swapchain.  Each `?`
of the source is an Except.bind.  One image view is created per backbuffer
image, one framebuffer per image view, one primary command buffer per
framebuffer; the semaphore and fence vectors are built by full_flight;
creation steps fail with the source's error strings, in the source's
evaluation order. -/
def gfx_new (backbuffer : List Nat) (env : NewEnv) : Except String GfxState :=
  (guard_step env.instanceOk "Unsupported backend").bind fun _ =>
  (guard_step env.surfaceOk "Could not get drawing surface").bind fun _ =>
  (guard_step env.adapterFound "No adapter supporting Vulkan").bind fun _ =>
  (guard_step env.queueFamilyFound "No queue family with graphics.").bind fun _ =>
  (guard_step env.deviceOk "Could not open physical device").bind fun _ =>
  (guard_step env.queueGroupFound "Matching queue group not found").bind fun _ =>
  (guard_step env.queuesNonempty "Queue group contains no command queues").bind fun _ =>
  (guard_step env.swapchainOk "Could not create swapchain").bind fun _ =>
  (guard_step env.renderPassOk "Could not create render pass").bind fun _ =>
  (mapExcept (fun image =>
      if env.viewOk image then .ok image
      else .error "Could not create a backbuffer image view") backbuffer).bind
    fun image_views =>
  (mapExcept (fun view =>
      if env.framebufferOk view then .ok view
      else .error "Could not create framebuffer") image_views).bind
    fun framebuffers =>
  (guard_step env.commandPoolOk "Could not create command pool").bind fun _ =>
  (full_flight (fun i =>
      if env.imageAvailableOk then .ok i
      else .error "Could not create semaphore")).bind
    fun image_available_semaphores =>
  (full_flight (fun i =>
      if env.renderFinishedOk then .ok i
      else .error "Could not create semaphore")).bind
    fun render_finished_semaphores =>
  (full_flight (fun i =>
      if env.fencesOk then .ok i
      else .error "Could not create fence")).bind
    fun in_flight_fences =>
  (PipelineInfo.new env.pipelineEnv).bind fun pipelineCreation =>
  ((BufferInfo.new QUAD_DATA_BYTES env.verticesEnv).1).bind fun vertices =>
  ((BufferInfo.new QUAD_INDICES_BYTES env.indicesEnv).1).bind fun indices =>
  .ok { current_frame := 0
        in_flight_fences
        render_finished_semaphores
        image_available_semaphores
        command_buffers := List.range framebuffers.length
        framebuffers
        image_views
        command_pool := 0
        render_pass := 1
        swapchain := 2
        pipeline := pipelineCreation.info
        vertices
        indices }

/-- Full characterization of a draw_frame call in which every step up to
presentation goes through: the frame slot is advanced, the semaphores are
the frame slot's, and the fence, command buffer and framebuffer are the
acquired image's. -/
lemma draw_frame_spec (s : GfxState) (env : DrawEnv) {a r f c fb : Nat}
    {i : Nat} {sub : Option Unit}
    (ha : s.image_available_semaphores[s.current_frame]? = some a)
    (hr : s.render_finished_semaphores[s.current_frame]? = some r)
    (hacq : env.acquire = some (i, sub))
    (hf : s.in_flight_fences[i]? = some f)
    (hw : env.waitFenceOk = true)
    (hrst : env.resetFenceOk = true)
    (hv : env.mapVerticesOk = true)
    (hix : env.mapIndicesOk = true)
    (hc : s.command_buffers[i]? = some c)
    (hfb : s.framebuffers[i]? = some fb) :
    draw_frame s env =
      ({ s with current_frame := (s.current_frame + 1) % FRAMES_IN_FLIGHT },
       [DrawAction.acquireImage a, .waitFence f, .resetFence f,
        .loadVertices, .loadIndices,
        .record c s.pipeline.layout .vertex 0 [env.mouse.1, env.mouse.2] fb,
        .submit c a r f, .present i r],
       match env.present with
       | .ok _ => DrawResult.ok
       | .failed => DrawResult.err "Failed to present into the swapchain") := by
  simp only [draw_frame, ha, hr, hacq, hf, hw, hrst, hv, hix, hc, hfb]
  cases env.present <;> simp

/-- Whatever the environment does, the only field a draw_frame call can
change is current_frame, and whenever the initial frame-slot lookups are in
bounds it changes it to (current_frame + 1) % FRAMES_IN_FLIGHT. -/
lemma draw_frame_fst (s : GfxState) (env : DrawEnv)
    (ha : s.current_frame < s.image_available_semaphores.length)
    (hr : s.current_frame < s.render_finished_semaphores.length) :
    (draw_frame s env).1 =
      { s with current_frame := (s.current_frame + 1) % FRAMES_IN_FLIGHT } := by
  unfold draw_frame
  rw [List.getElem?_eq_getElem ha, List.getElem?_eq_getElem hr]
  repeat' split
  all_goals first | rfl | simp_all

/-- Across any sequence of draw_frame calls the frame slot advances by one
per call, modulo FRAMES_IN_FLIGHT, whatever each call's outcome is. -/
lemma draw_frames_current_frame (envs : List DrawEnv) (s : GfxState)
    (h1 : FRAMES_IN_FLIGHT ≤ s.image_available_semaphores.length)
    (h2 : FRAMES_IN_FLIGHT ≤ s.render_finished_semaphores.length)
    (hcf : s.current_frame < FRAMES_IN_FLIGHT) :
    (draw_frames s envs).current_frame =
      (s.current_frame + envs.length) % FRAMES_IN_FLIGHT := by
  induction envs generalizing s with
  | nil =>
    simp [draw_frames, Nat.mod_eq_of_lt hcf]
  | cons e es ih =>
    have hfst := draw_frame_fst s e (lt_of_lt_of_le hcf h1) (lt_of_lt_of_le hcf h2)
    have hstep : draw_frames s (e :: es) = draw_frames (draw_frame s e).1 es := rfl
    rw [hstep, hfst,
      ih { s with current_frame := (s.current_frame + 1) % FRAMES_IN_FLIGHT }
        h1 h2 (Nat.mod_lt _ (by norm_num [FRAMES_IN_FLIGHT]))]
    show ((s.current_frame + 1) % FRAMES_IN_FLIGHT + es.length) % FRAMES_IN_FLIGHT
      = (s.current_frame + (e :: es).length) % FRAMES_IN_FLIGHT
    simp only [FRAMES_IN_FLIGHT, List.length_cons]
    omega

/-- C1: In every call to draw_frame, after image acquisition succeeds and
returns image index i, the fence waited on and then reset is
in_flight_fences[i] — indexed by the acquired image index i, not by the
frame slot that selected the semaphores; the command buffer recorded is
command_buffers[i], and the subsequent submit signals that same fence. -/
theorem draw_frame_fence_indexed_by_image (s : GfxState) (env : DrawEnv)
    {a r f c fb : Nat} {i : Nat} {sub : Option Unit}
    (ha : s.image_available_semaphores[s.current_frame]? = some a)
    (hr : s.render_finished_semaphores[s.current_frame]? = some r)
    (hacq : env.acquire = some (i, sub))
    (hf : s.in_flight_fences[i]? = some f)
    (hw : env.waitFenceOk = true)
    (hrst : env.resetFenceOk = true)
    (hv : env.mapVerticesOk = true)
    (hix : env.mapIndicesOk = true)
    (hc : s.command_buffers[i]? = some c)
    (hfb : s.framebuffers[i]? = some fb) :
    (draw_frame s env).2.1 =
      [DrawAction.acquireImage a, .waitFence f, .resetFence f,
       .loadVertices, .loadIndices,
       .record c s.pipeline.layout .vertex 0 [env.mouse.1, env.mouse.2] fb,
       .submit c a r f, .present i r] := by
  rw [draw_frame_spec s env ha hr hacq hf hw hrst hv hix hc hfb]

/-- Concrete state exercising the draw path: frame slot 1 selects
semaphores 11 and 14 while the acquired image index 2 selects fence 22,
command buffer 32 and framebuffer 42. -/
def S0 : GfxState :=
  { current_frame := 1
    in_flight_fences := [20, 21, 22]
    render_finished_semaphores := [13, 14, 15]
    image_available_semaphores := [10, 11, 12]
    command_buffers := [30, 31, 32]
    framebuffers := [40, 41, 42]
    image_views := [50, 51, 52]
    command_pool := 60
    render_pass := 61
    swapchain := 62
    pipeline := { descriptor_set_layouts := [70], layout := 71, handle := 72 }
    vertices := { buffer := 80, memory := 81,
                  requirements := { size := 32, alignment := 4, type_mask := 1 } }
    indices := { buffer := 82, memory := 83,
                 requirements := { size := 12, alignment := 2, type_mask := 1 } } }

/-- Concrete environment: acquisition succeeds with image index 2 and every
later step succeeds; mouse bit patterns 111 and 222. -/
def E0 : DrawEnv :=
  { acquire := some (2, none)
    waitFenceOk := true
    resetFenceOk := true
    mapVerticesOk := true
    mapIndicesOk := true
    mouse := (111, 222)
    present := .ok none }

/-- Witness for C1 at the concrete state S0 and environment E0. -/
theorem draw_frame_fence_indexed_by_image_witness :
    (draw_frame S0 E0).2.1 =
      [DrawAction.acquireImage 11, .waitFence 22, .resetFence 22,
       .loadVertices, .loadIndices,
       .record 32 71 .vertex 0 [111, 222] 42,
       .submit 32 11 14 22, .present 2 14] :=
  draw_frame_fence_indexed_by_image S0 E0 rfl rfl rfl rfl rfl rfl rfl rfl rfl rfl

/-- C2: draw_frame reads the frame slot and advances it to
(current_frame + 1) mod FRAMES_IN_FLIGHT before any fallible step, so the
slot advances by exactly one modulo 3 whatever the call's outcome, stays in
0 <= slot < 3, and cycles with period exactly 3 across successive calls
regardless of failures. -/
theorem current_frame_rotation (s : GfxState) (env : DrawEnv)
    (envs : List DrawEnv)
    (h1 : FRAMES_IN_FLIGHT ≤ s.image_available_semaphores.length)
    (h2 : FRAMES_IN_FLIGHT ≤ s.render_finished_semaphores.length)
    (hcf : s.current_frame < FRAMES_IN_FLIGHT) :
    FRAMES_IN_FLIGHT = 3
    ∧ (draw_frame s env).1.current_frame = (s.current_frame + 1) % 3
    ∧ (draw_frame s env).1.current_frame < 3
    ∧ (draw_frames s envs).current_frame = (s.current_frame + envs.length) % 3
    ∧ ((draw_frames s envs).current_frame = s.current_frame
        ↔ envs.length % 3 = 0) := by
  have hcf3 : s.current_frame < 3 := hcf
  have hfst := draw_frame_fst s env (lt_of_lt_of_le hcf h1) (lt_of_lt_of_le hcf h2)
  have hiter := draw_frames_current_frame envs s h1 h2 hcf
  refine ⟨rfl, ?_, ?_, hiter, ?_⟩
  · rw [hfst]
    rfl
  · rw [hfst]
    exact Nat.mod_lt _ (by norm_num [FRAMES_IN_FLIGHT])
  · rw [hiter]
    show (s.current_frame + envs.length) % 3 = s.current_frame ↔ _
    omega

/-- Witness for C2: from slot 1, one call lands on slot 2, and after three
calls (whatever their outcomes — here one acquire failure, one wait-fence
failure and one success) the slot is back at 1. -/
theorem current_frame_rotation_witness :
    (draw_frame S0 E0).1.current_frame = 2
    ∧ (draw_frames S0 [{ E0 with acquire := none },
        { E0 with waitFenceOk := false }, E0]).current_frame
        = S0.current_frame := by
  have h := current_frame_rotation S0 E0
    [{ E0 with acquire := none }, { E0 with waitFenceOk := false }, E0]
    (by decide) (by decide) (by decide)
  exact ⟨h.2.1, h.2.2.2.2.mpr (by decide)⟩

/-- C8: a suboptimal result from presentation (and from acquisition) is
treated as success: when present returns its suboptimal-indicating success
value draw_frame discards it and returns Ok, and only an actual present
error produces the frame's failure result; the suboptimal flag returned by
acquire_image is discarded without affecting anything. -/
theorem present_suboptimal_is_success (s : GfxState) (env : DrawEnv)
    {a r f c fb : Nat} {i : Nat} {sub : Option Unit}
    (ha : s.image_available_semaphores[s.current_frame]? = some a)
    (hr : s.render_finished_semaphores[s.current_frame]? = some r)
    (hacq : env.acquire = some (i, sub))
    (hf : s.in_flight_fences[i]? = some f)
    (hw : env.waitFenceOk = true)
    (hrst : env.resetFenceOk = true)
    (hv : env.mapVerticesOk = true)
    (hix : env.mapIndicesOk = true)
    (hc : s.command_buffers[i]? = some c)
    (hfb : s.framebuffers[i]? = some fb) :
    ((∀ sub2 : Option Unit, env.present = .ok sub2 →
        (draw_frame s env).2.2 = .ok)
      ∧ (env.present = .failed →
        (draw_frame s env).2.2 = .err "Failed to present into the swapchain"))
    ∧ ∀ sub1 sub2 : Option Unit,
        draw_frame s { env with acquire := some (i, sub1) } =
          draw_frame s { env with acquire := some (i, sub2) } := by
  refine ⟨⟨?_, ?_⟩, ?_⟩
  · intro sub2 hp
    rw [draw_frame_spec s env ha hr hacq hf hw hrst hv hix hc hfb]
    simp [hp]
  · intro hp
    rw [draw_frame_spec s env ha hr hacq hf hw hrst hv hix hc hfb]
    simp [hp]
  · intro sub1 sub2
    rw [draw_frame_spec s { env with acquire := some (i, sub1) }
        ha hr rfl hf hw hrst hv hix hc hfb,
      draw_frame_spec s { env with acquire := some (i, sub2) }
        ha hr rfl hf hw hrst hv hix hc hfb]

/-- Witness for C8: with a suboptimal-flagged present success the call
returns Ok, and the acquire suboptimal flag changes nothing. -/
theorem present_suboptimal_is_success_witness :
    (draw_frame S0 { E0 with present := .ok (some ()) }).2.2 = .ok
    ∧ draw_frame S0 { E0 with acquire := some (2, some ()) }
        = draw_frame S0 { E0 with acquire := some (2, none) } := by
  have h := present_suboptimal_is_success S0 { E0 with present := .ok (some ()) }
    rfl rfl rfl rfl rfl rfl rfl rfl rfl rfl
  exact ⟨h.1.1 (some ()) rfl, h.2 (some ()) none⟩

/-- C9: the in-flight fence vector has length FRAMES_IN_FLIGHT = 3 but is
indexed by the acquired image index, so the lookup is in bounds only for
image indices below 3; for any acquired image index at or above 3,
draw_frame panics (index out of bounds) instead of returning an error. -/
theorem fence_lookup_needs_image_index_below_three (s : GfxState)
    (env : DrawEnv) {a r : Nat} {i : Nat} {sub : Option Unit}
    (ha : s.image_available_semaphores[s.current_frame]? = some a)
    (hr : s.render_finished_semaphores[s.current_frame]? = some r)
    (hacq : env.acquire = some (i, sub))
    (hlen : s.in_flight_fences.length = 3) :
    (3 ≤ i →
      draw_frame s env =
        ({ s with current_frame := (s.current_frame + 1) % FRAMES_IN_FLIGHT },
         [DrawAction.acquireImage a], .panicked))
    ∧ (i < 3 → ∃ h3 : i < s.in_flight_fences.length,
        (draw_frame s env).2.1.take 2 =
          [DrawAction.acquireImage a,
           .waitFence (s.in_flight_fences.get ⟨i, h3⟩)]) := by
  constructor
  · intro hge
    have hnone : s.in_flight_fences[i]? = none := by
      rw [List.getElem?_eq_none]
      omega
    simp only [draw_frame, ha, hr, hacq, hnone]
  · intro hlt
    have h3 : i < s.in_flight_fences.length := by omega
    refine ⟨h3, ?_⟩
    have hf : s.in_flight_fences[i]? = some (s.in_flight_fences.get ⟨i, h3⟩) := by
      rw [List.getElem?_eq_getElem h3]
      simp
    simp only [draw_frame, ha, hr, hacq, hf]
    repeat' split
    all_goals simp

/-- Witness for C9: with three fences, acquiring image index 3 panics while
acquiring image index 2 reaches the fence wait on fence 22. -/
theorem fence_lookup_needs_image_index_below_three_witness :
    draw_frame S0 { E0 with acquire := some (3, none) } =
      ({ S0 with current_frame := 2 }, [DrawAction.acquireImage 11], .panicked)
    ∧ (draw_frame S0 E0).2.1.take 2 =
      [DrawAction.acquireImage 11, .waitFence 22] := by
  have hhi := fence_lookup_needs_image_index_below_three S0
    { E0 with acquire := some (3, none) } rfl rfl rfl rfl
  have hlo := fence_lookup_needs_image_index_below_three S0 E0 rfl rfl rfl rfl
  refine ⟨hhi.1 (by decide), ?_⟩
  obtain ⟨h3, htake⟩ := hlo.2 (by decide)
  exact htake

/-- Extract the handle of a swapchain destroy. -/
def swapchainOf : FreeAction → Option Nat
  | .destroySwapchain h => some h
  | _ => none

/-- filterMap over a mapped segment whose elements the extractor rejects. -/
lemma filterMap_comp_none {α β γ : Type} (f : β → Option γ) (g : α → β)
    (l : List α) (h : ∀ a, f (g a) = none) : l.filterMap (f ∘ g) = [] := by
  induction l with
  | nil => rfl
  | cons a as ih => simp [List.filterMap_cons, Function.comp, h, ih]

/-- filterMap over a mapped segment whose elements the extractor accepts. -/
lemma filterMap_comp_some {α β : Type} (f : β → Option α) (g : α → β)
    (l : List α) (h : ∀ a, f (g a) = some a) : l.filterMap (f ∘ g) = l := by
  induction l with
  | nil => rfl
  | cons a as ih => simp [List.filterMap_cons, Function.comp, h, ih]

/-- Mapping the rank over a constant-rank block gives a constant block. -/
lemma map_comp_rank {α : Type} (g : α → FreeAction) (c : Nat)
    (h : ∀ a, rank (g a) = c) (l : List α) :
    l.map (rank ∘ g) = List.replicate l.length c := by
  induction l with
  | nil => rfl
  | cons a as ih => simp [Function.comp, h, ih, List.replicate_succ]

/-- Prepending a constant block keeps a lower-bounded sorted list sorted. -/
lemma sorted_le_replicate_append (n c : Nat) {t : List Nat}
    (ht : t.Sorted (· ≤ ·)) (hlb : ∀ x ∈ t, c ≤ x) :
    (List.replicate n c ++ t).Sorted (· ≤ ·)
      ∧ ∀ x ∈ List.replicate n c ++ t, c ≤ x := by
  induction n with
  | zero => simpa using ⟨ht, hlb⟩
  | succ m ih =>
    obtain ⟨hs, hb⟩ := ih
    rw [List.replicate_succ, List.cons_append]
    refine ⟨List.sorted_cons.mpr ⟨hb, hs⟩, ?_⟩
    intro x hx
    rcases List.mem_cons.mp hx with rfl | hx
    · exact le_rfl
    · exact hb x hx

/-- Prepending a single lower bound keeps a sorted list sorted. -/
lemma sorted_le_cons (c : Nat) {t : List Nat}
    (ht : t.Sorted (· ≤ ·)) (hlb : ∀ x ∈ t, c ≤ x) :
    (c :: t).Sorted (· ≤ ·) ∧ ∀ x ∈ c :: t, c ≤ x := by
  refine ⟨List.sorted_cons.mpr ⟨hlb, ht⟩, ?_⟩
  intro x hx
  rcases List.mem_cons.mp hx with rfl | hx
  · exact le_rfl
  · exact hlb x hx

/-- Weaken the lower bound of a block. -/
lemma forall_le_of_le {c c' : Nat} {t : List Nat} (hcc : c' ≤ c)
    (h : ∀ x ∈ t, c ≤ x) : ∀ x ∈ t, c' ≤ x :=
  fun x hx => le_trans hcc (h x hx)

/-- C4: GfxState::free waits for the device to go idle first and then
destroys every resource exactly in dependency order: fences, then
semaphores, then framebuffers, then image views, then the vertex and index
buffers, then the pipeline resource, then the command pool, then the
render pass, and finally the swapchain — no destroy before the idle wait,
and the issued destroys cover exactly the held handles. -/
theorem free_destroy_order (s : GfxState) :
    (s.free).2 =
      .waitIdle ::
        (s.in_flight_fences.map .destroyFence
          ++ s.render_finished_semaphores.map .destroySemaphore
          ++ s.image_available_semaphores.map .destroySemaphore
          ++ s.framebuffers.map .destroyFramebuffer
          ++ s.image_views.map .destroyImageView
          ++ [.destroyBuffer s.vertices.buffer, .freeMemory s.vertices.memory]
          ++ [.destroyBuffer s.indices.buffer, .freeMemory s.indices.memory]
          ++ (s.pipeline.descriptor_set_layouts.map .destroyDescriptorSetLayout
              ++ [.destroyPipelineLayout s.pipeline.layout,
                  .destroyGraphicsPipeline s.pipeline.handle])
          ++ [.destroyCommandPool s.command_pool,
              .destroyRenderPass s.render_pass,
              .destroySwapchain s.swapchain])
    ∧ (s.free).2.head? = some .waitIdle
    ∧ (s.free).2.getLast? = some (.destroySwapchain s.swapchain)
    ∧ (s.free).2.filterMap fenceOf = s.in_flight_fences
    ∧ (s.free).2.filterMap semaphoreOf
        = s.render_finished_semaphores ++ s.image_available_semaphores
    ∧ (s.free).2.filterMap framebufferOf = s.framebuffers
    ∧ (s.free).2.filterMap imageViewOf = s.image_views
    ∧ ((s.free).2.map rank).Sorted (· ≤ ·) := by
  refine ⟨rfl, rfl, ?_, ?_, ?_, ?_, ?_, ?_⟩
  · show (FreeAction.waitIdle :: _).getLast? = _
    rw [show ∀ (z : List FreeAction), FreeAction.waitIdle :: z
        = [FreeAction.waitIdle] ++ z from fun z => rfl]
    repeat rw [List.getLast?_append_of_ne_nil _ (by simp)]
    rfl
  · simp [GfxState.free, BufferInfo.free, PipelineInfo.free,
      List.filterMap_append, List.filterMap_cons,
      filterMap_comp_none, filterMap_comp_some,
      fenceOf, semaphoreOf, framebufferOf, imageViewOf]
  · simp [GfxState.free, BufferInfo.free, PipelineInfo.free,
      List.filterMap_append, List.filterMap_cons,
      filterMap_comp_none, filterMap_comp_some,
      fenceOf, semaphoreOf, framebufferOf, imageViewOf]
  · simp [GfxState.free, BufferInfo.free, PipelineInfo.free,
      List.filterMap_append, List.filterMap_cons,
      filterMap_comp_none, filterMap_comp_some,
      fenceOf, semaphoreOf, framebufferOf, imageViewOf]
  · simp [GfxState.free, BufferInfo.free, PipelineInfo.free,
      List.filterMap_append, List.filterMap_cons,
      filterMap_comp_none, filterMap_comp_some,
      fenceOf, semaphoreOf, framebufferOf, imageViewOf]
  · have hmap : (s.free).2.map rank =
        0 :: (List.replicate s.in_flight_fences.length 1
          ++ (List.replicate s.render_finished_semaphores.length 2
          ++ (List.replicate s.image_available_semaphores.length 2
          ++ (List.replicate s.framebuffers.length 3
          ++ (List.replicate s.image_views.length 4
          ++ (5 :: 5 :: 5 :: 5 ::
            (List.replicate s.pipeline.descriptor_set_layouts.length 6
              ++ [6, 6, 7, 8, 9]))))))) := by
      simp only [GfxState.free, BufferInfo.free, PipelineInfo.free,
        List.map_append, List.map_map, List.map_cons, List.map_nil,
        List.cons_append, List.nil_append, List.append_assoc]
      rw [map_comp_rank FreeAction.destroyFence 1 (fun _ => rfl),
        map_comp_rank FreeAction.destroySemaphore 2 (fun _ => rfl),
        map_comp_rank FreeAction.destroySemaphore 2 (fun _ => rfl),
        map_comp_rank FreeAction.destroyFramebuffer 3 (fun _ => rfl),
        map_comp_rank FreeAction.destroyImageView 4 (fun _ => rfl),
        map_comp_rank FreeAction.destroyDescriptorSetLayout 6 (fun _ => rfl)]
      simp [rank]
    rw [hmap]
    have h9 : (([6, 6, 7, 8, 9] : List Nat).Sorted (· ≤ ·))
        ∧ ∀ x ∈ ([6, 6, 7, 8, 9] : List Nat), 6 ≤ x := by decide
    have h8 := sorted_le_replicate_append
      s.pipeline.descriptor_set_layouts.length 6 h9.1 h9.2
    have h7 := sorted_le_cons 5 h8.1 (forall_le_of_le (by norm_num) h8.2)
    have h6 := sorted_le_cons 5 h7.1 h7.2
    have h5 := sorted_le_cons 5 h6.1 h6.2
    have h4 := sorted_le_cons 5 h5.1 h5.2
    have h3 := sorted_le_replicate_append s.image_views.length 4
      h4.1 (forall_le_of_le (by norm_num) h4.2)
    have h2 := sorted_le_replicate_append s.framebuffers.length 3
      h3.1 (forall_le_of_le (by norm_num) h3.2)
    have h1 := sorted_le_replicate_append s.image_available_semaphores.length 2
      h2.1 (forall_le_of_le (by norm_num) h2.2)
    have h0 := sorted_le_replicate_append s.render_finished_semaphores.length 2
      h1.1 h1.2
    have hf := sorted_le_replicate_append s.in_flight_fences.length 1
      h0.1 (forall_le_of_le (by norm_num) h0.2)
    exact (sorted_le_cons 0 hf.1 (forall_le_of_le (by norm_num) hf.2)).1

/-- C10: GfxState::free is not idempotent.  A first call drains the fence,
semaphore, framebuffer and image-view vectors, so a second call destroys
none of those — but every call unconditionally re-issues the destroys for
the two buffers, the pipeline layout and handle, the command pool, the
render pass and the swapchain (ptr::read of ManuallyDrop fields), and the
resize path of main (explicit free, then reassignment that drops the old
state, whose Drop impl calls free) runs free twice on the same instance,
destroying the swapchain (and the other ManuallyDrop resources) twice. -/
theorem free_not_idempotent (s : GfxState) :
    ((s.free).1.free).2 =
      [FreeAction.waitIdle,
       .destroyBuffer s.vertices.buffer, .freeMemory s.vertices.memory,
       .destroyBuffer s.indices.buffer, .freeMemory s.indices.memory,
       .destroyPipelineLayout s.pipeline.layout,
       .destroyGraphicsPipeline s.pipeline.handle,
       .destroyCommandPool s.command_pool,
       .destroyRenderPass s.render_pass,
       .destroySwapchain s.swapchain]
    ∧ ((s.free).1.free).2.filterMap fenceOf = []
    ∧ ((s.free).1.free).2.filterMap semaphoreOf = []
    ∧ ((s.free).1.free).2.filterMap framebufferOf = []
    ∧ ((s.free).1.free).2.filterMap imageViewOf = []
    ∧ resize_path s = (s.free).2 ++ ((s.free).1.free).2
    ∧ (resize_path s).filterMap swapchainOf = [s.swapchain, s.swapchain] := by
  refine ⟨rfl, rfl, rfl, rfl, rfl, rfl, ?_⟩
  simp [resize_path, GfxState.free, BufferInfo.free, PipelineInfo.free,
    List.filterMap_append, List.filterMap_cons,
    filterMap_comp_none, filterMap_comp_some, swapchainOf]

/-- The enumerate-and-find scan returns the first index at or after `k`
whose memory type passes the predicate. -/
lemma find_memory_type_some (mask : Nat) (ts : List MemoryType) :
    ∀ (k id : Nat), find_memory_type mask k ts = some id →
      k ≤ id
      ∧ (∃ t, ts[id - k]? = some t ∧ memory_type_ok mask id t = true)
      ∧ ∀ j t', k ≤ j → j < id → ts[j - k]? = some t' →
          memory_type_ok mask j t' = false := by
  induction ts with
  | nil =>
    intro k id h
    simp [find_memory_type] at h
  | cons t ts ih =>
    intro k id h
    simp only [find_memory_type] at h
    by_cases hok : memory_type_ok mask k t = true
    · rw [if_pos hok] at h
      obtain rfl : k = id := by
        simpa using h
      refine ⟨le_rfl, ⟨t, by simp, hok⟩, ?_⟩
      intro j t' hkj hjid hget
      omega
    · rw [if_neg hok] at h
      obtain ⟨hk1, ⟨t₂, ht₂, hok₂⟩, hmin⟩ := ih (k + 1) id h
      refine ⟨by omega, ⟨t₂, ?_, hok₂⟩, ?_⟩
      · have hidx : id - k = (id - (k + 1)) + 1 := by omega
        rw [hidx]
        simpa using ht₂
      · intro j t' hkj hjid hget
        rcases Nat.eq_or_lt_of_le hkj with rfl | hgt
        · have ht' : t = t' := by
            simpa using hget
          subst ht'
          simpa using hok
        · have hidx : j - k = (j - (k + 1)) + 1 := by omega
          rw [hidx] at hget
          simp only [List.getElem?_cons_succ] at hget
          exact hmin j t' (by omega) hjid hget

/-- C5: BufferInfo::new performs exactly create / query requirements /
select the first CPU-visible mask-compatible memory type / allocate the
requirements-reported size / bind at offset 0, returns a distinct error at
whichever step fails, and on any error returns no bound buffer/memory
pair. -/
theorem buffer_new_steps (dataBytes : Nat) (env : BufferEnv) :
    (env.createOk = false →
      BufferInfo.new dataBytes env =
        (.error "Failed to create a buffer for the vertices",
         [.createBuffer dataBytes]))
    ∧ (env.createOk = true →
        find_memory_type env.requirements.type_mask 0 env.memory_types = none →
        BufferInfo.new dataBytes env =
          (.error "Failed to find a memory type to support the vertex buffer",
           [.createBuffer dataBytes, .getRequirements]))
    ∧ ∀ id, env.createOk = true →
        find_memory_type env.requirements.type_mask 0 env.memory_types = some id →
        ((∃ t, env.memory_types[id]? = some t
            ∧ memory_type_ok env.requirements.type_mask id t = true)
          ∧ (∀ j t', j < id → env.memory_types[j]? = some t' →
              memory_type_ok env.requirements.type_mask j t' = false)
          ∧ (env.allocateOk = false →
              BufferInfo.new dataBytes env =
                (.error "Failed to allocate vertex buffer memory",
                 [.createBuffer dataBytes, .getRequirements,
                  .allocateMemory id env.requirements.size]))
          ∧ (env.allocateOk = true → env.bindOk = false →
              BufferInfo.new dataBytes env =
                (.error "Failed to bind the buffer memory",
                 [.createBuffer dataBytes, .getRequirements,
                  .allocateMemory id env.requirements.size,
                  .bindBufferMemory 0]))
          ∧ (env.allocateOk = true → env.bindOk = true →
              BufferInfo.new dataBytes env =
                (.ok { buffer := env.bufferHandle, memory := env.memoryHandle,
                       requirements := env.requirements },
                 [.createBuffer dataBytes, .getRequirements,
                  .allocateMemory id env.requirements.size,
                  .bindBufferMemory 0]))) := by
  refine ⟨?_, ?_, ?_⟩
  · intro hcr
    simp [BufferInfo.new, hcr]
  · intro hcr hfind
    simp [BufferInfo.new, hcr, hfind]
  · intro id hcr hfind
    obtain ⟨-, ⟨t, ht, hok⟩, hmin⟩ :=
      find_memory_type_some env.requirements.type_mask env.memory_types 0 id hfind
    refine ⟨⟨t, by simpa using ht, hok⟩, ?_, ?_, ?_, ?_⟩
    · intro j t' hj hget
      exact hmin j t' (Nat.zero_le j) hj (by simpa using hget)
    · intro halloc
      simp [BufferInfo.new, hcr, hfind, halloc]
    · intro halloc hbind
      simp [BufferInfo.new, hcr, hfind, halloc, hbind]
    · intro halloc hbind
      simp [BufferInfo.new, hcr, hfind, halloc, hbind]

/-- Environment for an all-successful buffer creation whose memory type
table makes the scan skip a non-CPU-visible type 0 and pick type 1. -/
def ENV5 : BufferEnv :=
  { createOk := true
    bufferHandle := 7
    requirements := { size := 64, alignment := 4, type_mask := 6 }
    memory_types := [{ cpu_visible := false }, { cpu_visible := true },
                     { cpu_visible := true }]
    allocateOk := true
    memoryHandle := 9
    bindOk := true }

/-- Witness for C5: the successful path creates a 32-byte buffer, picks
memory type 1 (the first CPU-visible compatible one), allocates the
requirements-reported 64 bytes and binds at offset 0. -/
theorem buffer_new_steps_witness :
    BufferInfo.new 32 ENV5 =
      (.ok { buffer := 7, memory := 9,
             requirements := { size := 64, alignment := 4, type_mask := 6 } },
       [.createBuffer 32, .getRequirements, .allocateMemory 1 64,
        .bindBufferMemory 0]) :=
  ((buffer_new_steps 32 ENV5).2.2 1 rfl rfl).2.2.2.2 rfl rfl

/-- C6: for data whose byte length fits the buffer, load_data maps, copies
the data byte-for-byte to offset 0 and then unmaps, so an immediate
read-back of the first data.length bytes is byte-identical to the source
and bytes past the copy are untouched; a failed map yields only the
map error for that call and leaves the contents unchanged. -/
theorem load_data_roundtrip (b : BufferInfo) (memory data : List Nat)
    (mapOk : Bool) (hfit : data.length ≤ memory.length) :
    (mapOk = true →
      (b.load_data memory data mapOk).1 = data ++ memory.drop data.length
      ∧ (b.load_data memory data mapOk).1.take data.length = data
      ∧ (b.load_data memory data mapOk).1.length = memory.length
      ∧ (b.load_data memory data mapOk).1.drop data.length
          = memory.drop data.length
      ∧ (b.load_data memory data mapOk).2.1
          = [.mapMemory 0 b.requirements.size, .copy data.length, .unmapMemory]
      ∧ (b.load_data memory data mapOk).2.2 = .ok)
    ∧ (mapOk = false →
      (b.load_data memory data mapOk).1 = memory
      ∧ (b.load_data memory data mapOk).2.1
          = [.mapMemory 0 b.requirements.size]
      ∧ (b.load_data memory data mapOk).2.2
          = .err "Failed to memory map buffer") := by
  constructor
  · intro hmap
    subst hmap
    refine ⟨rfl, ?_, ?_, ?_, rfl, rfl⟩
    · simp [BufferInfo.load_data, List.take_left]
    · simp [BufferInfo.load_data]
      omega
    · simp [BufferInfo.load_data, List.drop_left]
  · intro hmap
    subst hmap
    exact ⟨rfl, rfl, rfl⟩

/-- Witness for C6: uploading bytes 1,2,3 into a five-byte buffer holding
9s yields 1,2,3,9,9; a failed map leaves the 9s in place. -/
theorem load_data_roundtrip_witness :
    (S0.vertices.load_data [9, 9, 9, 9, 9] [1, 2, 3] true).1 = [1, 2, 3, 9, 9]
    ∧ (S0.vertices.load_data [9, 9, 9, 9, 9] [1, 2, 3] false).1
        = [9, 9, 9, 9, 9] := by
  have h := load_data_roundtrip S0.vertices [9, 9, 9, 9, 9] [1, 2, 3] true
    (by decide)
  have h' := load_data_roundtrip S0.vertices [9, 9, 9, 9, 9] [1, 2, 3] false
    (by decide)
  exact ⟨(h.1 rfl).1, (h'.2 rfl).1⟩

/-- Inversion of a successful Except.bind. -/
lemma bind_ok {α β : Type} {a : Except String α} {f : α → Except String β}
    {b : β} (h : a.bind f = .ok b) : ∃ x, a = .ok x ∧ f x = .ok b := by
  cases a with
  | error e => simp [Except.bind] at h
  | ok x => exact ⟨x, rfl, by simpa [Except.bind] using h⟩

/-- A successful collect has as many results as inputs. -/
lemma mapExcept_length {α β : Type} (f : α → Except String β) :
    ∀ (l : List α) (l' : List β), mapExcept f l = .ok l' → l'.length = l.length := by
  intro l
  induction l with
  | nil =>
    intro l' h
    simp only [mapExcept] at h
    obtain rfl : ([] : List β) = l' := by simpa using h
    rfl
  | cons a as ih =>
    intro l' h
    simp only [mapExcept] at h
    cases hfa : f a with
    | error e =>
      rw [hfa] at h
      simp at h
    | ok b =>
      rw [hfa] at h
      cases hma : mapExcept f as with
      | error e =>
        rw [hma] at h
        simp at h
      | ok bs =>
        rw [hma] at h
        obtain rfl : b :: bs = l' := by simpa using h
        simp [ih bs hma]

/-- C7: after a successful GfxState::new — and hence after every
recreation on resize — the image view count equals the framebuffer count
equals the swapchain backbuffer image count, and one primary command
buffer is allocated per framebuffer, so the command buffer count equals
the swapchain image count as well. -/
theorem gfx_new_counts (backbuffer : List Nat) (env : NewEnv) (s : GfxState)
    (h : gfx_new backbuffer env = .ok s) :
    s.image_views.length = backbuffer.length
    ∧ s.framebuffers.length = s.image_views.length
    ∧ s.command_buffers.length = s.framebuffers.length
    ∧ s.command_buffers.length = backbuffer.length := by
  rw [gfx_new.eq_def] at h
  obtain ⟨-, -, h⟩ := bind_ok h
  obtain ⟨-, -, h⟩ := bind_ok h
  obtain ⟨-, -, h⟩ := bind_ok h
  obtain ⟨-, -, h⟩ := bind_ok h
  obtain ⟨-, -, h⟩ := bind_ok h
  obtain ⟨-, -, h⟩ := bind_ok h
  obtain ⟨-, -, h⟩ := bind_ok h
  obtain ⟨-, -, h⟩ := bind_ok h
  obtain ⟨-, -, h⟩ := bind_ok h
  obtain ⟨iv, hiv, h⟩ := bind_ok h
  obtain ⟨fb, hfb, h⟩ := bind_ok h
  obtain ⟨-, -, h⟩ := bind_ok h
  obtain ⟨ias, hias, h⟩ := bind_ok h
  obtain ⟨rfs, hrfs, h⟩ := bind_ok h
  obtain ⟨ff, hff, h⟩ := bind_ok h
  obtain ⟨pc, hpc, h⟩ := bind_ok h
  obtain ⟨v, hv, h⟩ := bind_ok h
  obtain ⟨ind, hind, h⟩ := bind_ok h
  injection h with h
  subst h
  have hviews : iv.length = backbuffer.length := mapExcept_length _ backbuffer iv hiv
  have hfbs : fb.length = iv.length := mapExcept_length _ iv fb hfb
  refine ⟨hviews, hfbs, ?_, ?_⟩
  · simp
  · simp [hfbs, hviews]

/-- An all-successful pipeline creation environment. -/
def PENV : PipelineEnv :=
  { compilerOk := true
    vert := { readOk := true, compileOk := true, moduleOk := true }
    frag := { readOk := true, compileOk := true, moduleOk := true }
    descriptorSetLayoutOk := true
    pipelineLayoutOk := true
    pipelineOk := true }

/-- Everything a successful PipelineInfo::new declares. -/
def R3 : PipelineCreation :=
  { info := { descriptor_set_layouts := [0], layout := 0, handle := 0 }
    push_constants := []
    vertex_buffers := [{ binding := 0, stride := 8, rate := .vertex }]
    attributes := [{ location := 0, binding := 0,
                     element := { format := .rg32Sfloat, offset := 0 } }] }

/-- C3 (evaluation at the failing input): a successful pipeline creation
declares the claimed vertex-buffer binding (stride 8, per-vertex) and the
claimed 2-component float attribute at location 0, offset 0, but the
pipeline layout is created with an empty push-constant range list — not
the claimed two-32-bit-word vertex-stage range — even though draw_frame
pushes two 32-bit words to the vertex stage at offset 0 through that very
layout. -/
theorem pipeline_layout_push_constants_empty :
    PipelineInfo.new PENV = .ok R3
    ∧ R3.push_constants = []
    ∧ R3.push_constants ≠ [{ stage := .vertex, lo := 0, hi := 2 }]
    ∧ R3.vertex_buffers = [{ binding := 0, stride := 8, rate := .vertex }]
    ∧ R3.attributes = [{ location := 0, binding := 0,
                         element := { format := .rg32Sfloat, offset := 0 } }]
    ∧ (draw_frame S0 E0).2.1[5]?
        = some (.record 32 71 .vertex 0 [111, 222] 42) := by
  refine ⟨rfl, rfl, by decide, rfl, rfl, rfl⟩

/-- Backbuffer of three swapchain images. -/
def BB3 : List Nat := [100, 101, 102]

/-- All-successful GfxState::new environment. -/
def ENV7 : NewEnv :=
  { instanceOk := true
    surfaceOk := true
    adapterFound := true
    queueFamilyFound := true
    deviceOk := true
    queueGroupFound := true
    queuesNonempty := true
    swapchainOk := true
    renderPassOk := true
    viewOk := fun _ => true
    framebufferOk := fun _ => true
    commandPoolOk := true
    imageAvailableOk := true
    renderFinishedOk := true
    fencesOk := true
    pipelineEnv := PENV
    verticesEnv := ENV5
    indicesEnv := ENV5 }

/-- The state an all-successful GfxState::new builds over BB3. -/
def S7 : GfxState :=
  { current_frame := 0
    in_flight_fences := [0, 1, 2]
    render_finished_semaphores := [0, 1, 2]
    image_available_semaphores := [0, 1, 2]
    command_buffers := [0, 1, 2]
    framebuffers := [100, 101, 102]
    image_views := [100, 101, 102]
    command_pool := 0
    render_pass := 1
    swapchain := 2
    pipeline := { descriptor_set_layouts := [0], layout := 0, handle := 0 }
    vertices := { buffer := 7, memory := 9,
                  requirements := { size := 64, alignment := 4, type_mask := 6 } }
    indices := { buffer := 7, memory := 9,
                 requirements := { size := 64, alignment := 4, type_mask := 6 } } }

/-- Witness for C7: over a three-image backbuffer the counts all equal 3. -/
theorem gfx_new_counts_witness :
    gfx_new BB3 ENV7 = .ok S7
    ∧ S7.image_views.length = BB3.length
    ∧ S7.framebuffers.length = S7.image_views.length
    ∧ S7.command_buffers.length = S7.framebuffers.length
    ∧ S7.command_buffers.length = BB3.length := by
  have h : gfx_new BB3 ENV7 = .ok S7 := rfl
  exact ⟨h, gfx_new_counts BB3 ENV7 S7 h⟩

end LearnGfxRs
